import Mathlib

/-!
Shallow embedding of the Inkstack authentication core (auth service).

The embedding follows the Go source of the repository:
- internal/service/jwt_service.go        (JWT codec)
- internal/service/auth_service.go       (the session manager, AuthService)
- internal/repository/user_repository.go (credential store)
- internal/repository/token_repository.go (refresh token ledger)
- internal/database/redis.go             (blacklist and rate-limit cache)
- internal/models (User, RefreshToken)

Machine time is modelled as natural-number seconds; every operation takes
the current time explicitly (the Go code calls time.Now inside, once per
operation).  Persisted state (users, refresh token rows, the Redis cache)
is an explicit DBState record threaded through each operation.  Transport
failures of the collaborators (database or cache being unreachable) are
modelled by an explicit Faults record of injection flags; the Go code
receives them as non-nil error values from the corresponding calls.
-/

deriving instance DecidableEq for Except

namespace Inkstack

/-- Configuration surface used by the JWT codec (config.Config, JWT section). -/
structure Config where
  secret : String
  accessExpiry : Nat
  refreshExpiry : Nat
deriving DecidableEq

/-- models.User (fields relevant to the authentication core). -/
structure User where
  id : Nat
  email : String
  username : String
  passwordHash : String
  isActive : Bool
  role : String
  lastLoginAt : Option Nat
deriving DecidableEq

/-- service.JWTClaims: the custom claims plus the embedded RegisteredClaims. -/
structure JWTClaims where
  userID : Nat
  email : String
  username : String
  role : String
  expiresAt : Nat
  issuedAt : Nat
  notBefore : Nat
  issuer : String
  subject : String
deriving DecidableEq

/-- The signing method recorded in a token header (jwt.SigningMethod). -/
inductive Alg
  | HS256
  | RS256
  | noneAlg
deriving DecidableEq

/-- A structurally well-formed JWT: header algorithm, claims, signature tag. -/
structure SignedJWT where
  alg : Alg
  claims : JWTClaims
  sig : Nat
deriving DecidableEq

/-- A token string: either it parses into a JWT or it is malformed.
The compact serialization is opaque to the core, so the embedding keeps
the parsed form as the token value itself. -/
inductive TokenStr
  | jwt (t : SignedJWT)
  | malformed (s : String)
deriving DecidableEq

/-- A concrete stand-in for an opaque byte hash of a string (the model of
the HMAC-SHA256 primitive does not need any cryptographic property:
issuance computes the tag and verification recomputes and compares it,
exactly as the golang-jwt library does). -/
def strHash (s : String) : Nat :=
  s.data.foldl (fun h c => h * 31 + c.toNat) 7

/-- Case folding of an identifier column, as done by the LOWER SQL
function in the repository queries. -/
def lowerStr (s : String) : List Char :=
  s.data.map Char.toLower

/-- Model of the HMAC-SHA256 tag over the serialized claims with the
shared secret. -/
def hmacSHA256 (secret : String) (c : JWTClaims) : Nat :=
  strHash secret * 1000003 +
    strHash c.email * 3 + strHash c.username * 5 + strHash c.role * 7 +
    strHash c.issuer * 11 + strHash c.subject * 13 +
    c.userID * 17 + c.expiresAt * 19 + c.issuedAt * 23 + c.notBefore * 29

/-- Failure reasons inside jwt.ParseWithClaims (all are collapsed by the
codec wrapper below, as in jwt_service.go). -/
inductive JWTError
  | malformedToken
  | badAlg
  | badSignature
  | expired
  | notYetValid
deriving DecidableEq

/-- jwt.ParseWithClaims with the keyfunc of JWTService.ValidateToken:
reject non-HMAC signing methods, verify the signature with the shared
secret, then validate the registered claims (expiry and not-before)
against the current clock, per golang-jwt v5 default validation. -/
def parseWithClaims (secret : String) (now : Nat) : TokenStr → Except JWTError JWTClaims
  | .malformed _ => .error .malformedToken
  | .jwt t =>
    match t.alg with
    | .HS256 =>
      if t.sig = hmacSHA256 secret t.claims then
        if t.claims.expiresAt ≤ now then .error .expired
        else if now < t.claims.notBefore then .error .notYetValid
        else .ok t.claims
      else .error .badSignature
    | _ => .error .badAlg

/-- Error values of the auth service, one per distinct fmt.Errorf message
in the Go source (wrapped transport errors keep the wrapping message). -/
inductive AuthErr
  | invalidEmail
  | invalidUsername
  | weakPassword
  | failedCheckEmail
  | emailAlreadyRegistered
  | failedCheckUsername
  | usernameAlreadyTaken
  | failedHashPassword
  | failedCreateUser
  | failedGenerateTokens
  | failedStoreRefreshToken
  | tooManyAttempts
  | invalidCredentials
  | accountInactive
  | invalidRefreshToken
  | refreshTokenNotFound
  | refreshTokenInvalidOrExpired
  | userNotFound
  | failedRevokeRefreshToken
  | failedRevokeAllUserTokens
  | failedUpdatePassword
  | tokenRevoked
  | failedToParseToken
  | invalidCurrentPassword
deriving DecidableEq

/-- The claims built by JWTService.GenerateAccessToken. -/
def accessClaims (cfg : Config) (now : Nat) (u : User) : JWTClaims :=
  { userID := u.id
    email := u.email
    username := u.username
    role := u.role
    expiresAt := now + cfg.accessExpiry
    issuedAt := now
    notBefore := now
    issuer := "inkstack-auth"
    subject := toString u.id }

/-- The claims built by JWTService.GenerateRefreshToken (identical shape,
longer expiry). -/
def refreshClaims (cfg : Config) (now : Nat) (u : User) : JWTClaims :=
  { userID := u.id
    email := u.email
    username := u.username
    role := u.role
    expiresAt := now + cfg.refreshExpiry
    issuedAt := now
    notBefore := now
    issuer := "inkstack-auth"
    subject := toString u.id }

/-- JWTService.GenerateAccessToken: HS256-sign the access claims with the
shared secret.  HMAC signing does not fail, so the model is total. -/
def JWTService.generateAccessToken (cfg : Config) (now : Nat) (u : User) : TokenStr :=
  .jwt { alg := .HS256
         claims := accessClaims cfg now u
         sig := hmacSHA256 cfg.secret (accessClaims cfg now u) }

/-- JWTService.GenerateRefreshToken: HS256-sign the refresh claims and
return the token together with its expiry timestamp. -/
def JWTService.generateRefreshToken (cfg : Config) (now : Nat) (u : User) : TokenStr × Nat :=
  (.jwt { alg := .HS256
          claims := refreshClaims cfg now u
          sig := hmacSHA256 cfg.secret (refreshClaims cfg now u) }
   , now + cfg.refreshExpiry)

/-- JWTService.ValidateToken: any parse or validation failure is collapsed
into the single failed-to-parse wrapper error. -/
def JWTService.validateToken (cfg : Config) (now : Nat) (tok : TokenStr) :
    Except AuthErr JWTClaims :=
  match parseWithClaims cfg.secret now tok with
  | .error _ => .error .failedToParseToken
  | .ok c => .ok c

/-- JWTService.GetTokenExpiry: validate, then project the expiry claim. -/
def JWTService.getTokenExpiry (cfg : Config) (now : Nat) (tok : TokenStr) :
    Except AuthErr Nat :=
  match JWTService.validateToken cfg now tok with
  | .error e => .error e
  | .ok c => .ok c.expiresAt

/-- models.RefreshToken: one ledger row per issued refresh token. -/
structure RefreshTokenRec where
  userID : Nat
  token : TokenStr
  expiresAt : Nat
  isRevoked : Bool
  ipAddress : String
  userAgent : String
deriving DecidableEq

/-- RefreshToken.IsValid: not revoked and the current time is before the
expiry recorded in the row. -/
def RefreshTokenRec.IsValid (rt : RefreshTokenRec) (now : Nat) : Bool :=
  !rt.isRevoked && decide (now < rt.expiresAt)

/-- The persisted world: the users table, the refresh token ledger, and
the Redis cache (blacklist entries and login-attempt counters, each with
an absolute expiry time standing for the Redis TTL). -/
structure DBState where
  users : List User
  tokens : List RefreshTokenRec
  blacklist : List (TokenStr × Nat)
  loginAttempts : List (String × Nat × Nat)
deriving DecidableEq

/-- userRepository.FindByID over the users table. -/
def findByID : List User → Nat → Option User
  | [], _ => none
  | u :: tl, id => if u.id = id then some u else findByID tl id

/-- userRepository.FindByEmailOrUsername: case-insensitive match on the
email or the username column. -/
def findByEmailOrUsername : List User → String → Option User
  | [], _ => none
  | u :: tl, ident =>
    if lowerStr u.email = lowerStr ident ∨ lowerStr u.username = lowerStr ident
    then some u else findByEmailOrUsername tl ident

/-- userRepository.ExistsByEmail (case-insensitive). -/
def existsByEmail (users : List User) (email : String) : Bool :=
  users.any (fun u => lowerStr u.email == lowerStr email)

/-- userRepository.ExistsByUsername (case-insensitive). -/
def existsByUsername (users : List User) (username : String) : Bool :=
  users.any (fun u => lowerStr u.username == lowerStr username)

/-- userRepository.Update: save the row with the matching primary key. -/
def replaceUser (users : List User) (u : User) : List User :=
  users.map (fun v => if v.id = u.id then u else v)

/-- tokenRepository.FindByToken over the ledger. -/
def findTokenRec : List RefreshTokenRec → TokenStr → Option RefreshTokenRec
  | [], _ => none
  | r :: tl, t => if r.token = t then some r else findTokenRec tl t

/-- tokenRepository.RevokeToken: set is_revoked on every row whose token
column matches (an UPDATE matching zero rows is not an error). -/
def revokeTokenRecs (tks : List RefreshTokenRec) (t : TokenStr) : List RefreshTokenRec :=
  tks.map (fun r => if r.token = t then { r with isRevoked := true } else r)

/-- tokenRepository.RevokeAllUserTokens: set is_revoked on every
not-yet-revoked row of the user. -/
def revokeAllUserRecs (tks : List RefreshTokenRec) (uid : Nat) : List RefreshTokenRec :=
  tks.map (fun r => if r.userID = uid ∧ r.isRevoked = false
                    then { r with isRevoked := true } else r)

/-- Lookup of a live (unexpired) Redis login-attempt counter entry. -/
def lookupAttemptEntry : List (String × Nat × Nat) → Nat → String → Option (Nat × Nat)
  | [], _, _ => none
  | e :: tl, now, ident =>
    if e.1 = ident then (if now < e.2.2 then some e.2 else none)
    else lookupAttemptEntry tl now ident

/-- Remove a key from an association list of cache entries. -/
def eraseAttemptEntry : List (String × Nat × Nat) → String → List (String × Nat × Nat)
  | [], _ => []
  | e :: tl, ident =>
    if e.1 = ident then eraseAttemptEntry tl ident
    else e :: eraseAttemptEntry tl ident

/-- Store a key in the attempt-counter cache, replacing any stale entry. -/
def setAttemptEntry (l : List (String × Nat × Nat)) (ident : String)
    (count : Nat) (expiry : Nat) : List (String × Nat × Nat) :=
  (ident, count, expiry) :: eraseAttemptEntry l ident

/-- database.GetLoginAttempts: the counter value, 0 when the key is
absent or its TTL has elapsed (redis.Nil is mapped to 0 in the source). -/
def getLoginAttempts (s : DBState) (now : Nat) (ident : String) : Nat :=
  match lookupAttemptEntry s.loginAttempts now ident with
  | none => 0
  | some e => e.1

/-- database.IncrementLoginAttempts: atomic INCR; the 15-minute window is
set only on the transition to count 1 (a fresh or expired key). -/
def incrementLoginAttempts (s : DBState) (now : Nat) (ident : String) : DBState :=
  match lookupAttemptEntry s.loginAttempts now ident with
  | none =>
    { s with loginAttempts := setAttemptEntry s.loginAttempts ident 1 (now + 900) }
  | some e =>
    { s with loginAttempts := setAttemptEntry s.loginAttempts ident (e.1 + 1) e.2 }

/-- database.ResetLoginAttempts: DEL of the counter key. -/
def resetLoginAttempts (s : DBState) (ident : String) : DBState :=
  { s with loginAttempts := eraseAttemptEntry s.loginAttempts ident }

/-- database.IsTokenBlacklisted: EXISTS of the blacklist key (true only
while its TTL has not elapsed). -/
def isTokenBlacklisted (s : DBState) (now : Nat) (t : TokenStr) : Bool :=
  s.blacklist.any (fun e => e.1 == t && decide (now < e.2))

/-- Remove a token from the blacklist association list. -/
def eraseBlacklistEntry : List (TokenStr × Nat) → TokenStr → List (TokenStr × Nat)
  | [], _ => []
  | e :: tl, t =>
    if e.1 = t then eraseBlacklistEntry tl t
    else e :: eraseBlacklistEntry tl t

/-- database.BlacklistToken: SET with a TTL; the model stores the absolute
expiry instant (now plus the TTL the Go code passes). -/
def blacklistToken (s : DBState) (t : TokenStr) (expiry : Nat) : DBState :=
  { s with blacklist := (t, expiry) :: eraseBlacklistEntry s.blacklist t }

/-- Transport-failure injection for the collaborators: each flag makes the
corresponding database or cache call return a non-nil error, the way an
unreachable Postgres or Redis would.  The Go code receives these as error
values; the flags make the propagation behaviour of each call site
provable. -/
structure Faults where
  getAttemptsFails : Bool
  isBlacklistedFails : Bool
  revokeAllFails : Bool
  userUpdateFails : Bool
  tokenCreateFails : Bool
  hashFails : Bool
  revokeTokenFails : Bool
  userCreateFails : Bool
  existsEmailFails : Bool
  existsUsernameFails : Bool
deriving DecidableEq

/-- All collaborators healthy. -/
def noFaults : Faults :=
  { getAttemptsFails := false
    isBlacklistedFails := false
    revokeAllFails := false
    userUpdateFails := false
    tokenCreateFails := false
    hashFails := false
    revokeTokenFails := false
    userCreateFails := false
    existsEmailFails := false
    existsUsernameFails := false }

/-- Modelled from the spec: util.ValidateEmail is not under src/ (only its
call sites are); the spec asks for an email shape check, modelled as the
presence of an at sign. -/
def validateEmail (email : String) : Bool :=
  email.data.any (fun c => c == '@')

/-- Modelled from the spec: util.ValidateUsername is not under src/; the
spec asks for a username shape check, modelled as non-emptiness. -/
def validateUsername (username : String) : Bool :=
  decide (0 < username.data.length)

/-- Modelled from the spec: util.ValidatePasswordStrength is not under
src/; section 4.1 of the spec states the policy exactly: minimum length 8
and at least one uppercase letter, one lowercase letter, one digit, and
one symbol. -/
def validatePasswordStrength (p : String) : Bool :=
  decide (8 ≤ p.data.length) && p.data.any Char.isUpper && p.data.any Char.isLower &&
    p.data.any Char.isDigit && p.data.any (fun c => !c.isAlphanum)

/-- Modelled from the spec: util.HashPassword (bcrypt) is not under src/;
the model is an injective tagging that can fail on a transport fault, the
only properties the session manager relies on. -/
def hashPassword (f : Faults) (p : String) : Except AuthErr String :=
  if f.hashFails then .error .failedHashPassword else .ok ("bcrypt$" ++ p)

/-- Modelled from the spec: util.ComparePassword (bcrypt verify) is not
under src/; it verifies a password against a stored hash and never
errors. -/
def comparePassword (hash password : String) : Bool :=
  hash == "bcrypt$" ++ password

/-- service.RegisterInput. -/
structure RegisterInput where
  email : String
  username : String
  password : String
deriving DecidableEq

/-- service.LoginInput. -/
structure LoginInput where
  emailOrUsername : String
  password : String
  ipAddress : String
  userAgent : String
deriving DecidableEq

/-- service.TokenPair. -/
structure TokenPair where
  accessToken : TokenStr
  refreshToken : TokenStr
deriving DecidableEq

/-- tokenRepository.Create: INSERT of a fresh ledger row; a duplicate of
the unique token column or a transport fault is an error and leaves the
ledger unchanged. -/
def tokenRepoCreate (f : Faults) (rcd : RefreshTokenRec) (s : DBState) :
    Except AuthErr Unit × DBState :=
  if f.tokenCreateFails then (.error .failedStoreRefreshToken, s)
  else
    match findTokenRec s.tokens rcd.token with
    | some _ => (.error .failedStoreRefreshToken, s)
    | none => (.ok (), { s with tokens := s.tokens ++ [rcd] })

/-- The fresh ledger row built inside AuthService.generateTokenPair:
the owning user, the minted refresh token and its expiry, is_revoked
false, the supplied client metadata. -/
def refreshTokenRow (cfg : Config) (now : Nat) (u : User) (ip ua : String) :
    RefreshTokenRec :=
  { userID := u.id
    token := (JWTService.generateRefreshToken cfg now u).1
    expiresAt := (JWTService.generateRefreshToken cfg now u).2
    isRevoked := false
    ipAddress := ip
    userAgent := ua }

/-- AuthService.generateTokenPair: mint the access and refresh tokens and
persist the refresh token row. -/
def AuthService.generateTokenPair (f : Faults) (cfg : Config) (now : Nat)
    (u : User) (ip ua : String) (s : DBState) : Except AuthErr TokenPair × DBState :=
  match tokenRepoCreate f (refreshTokenRow cfg now u ip ua) s with
  | (.error _, s1) => (.error .failedStoreRefreshToken, s1)
  | (.ok _, s1) =>
    (.ok { accessToken := JWTService.generateAccessToken cfg now u
           refreshToken := (JWTService.generateRefreshToken cfg now u).1 }, s1)

/-- The user row created by AuthService.Register (role user, active; the
id is assigned by the INSERT). -/
def registerUser (input : RegisterInput) (passwordHash : String) (s : DBState) : User :=
  { id := s.users.length + 1
    email := input.email
    username := input.username
    passwordHash := passwordHash
    isActive := true
    role := "user"
    lastLoginAt := none }

/-- AuthService.Register: validate shape and policy, check uniqueness,
hash, create the user row (role user, active), then mint and persist the
token pair with empty client metadata. -/
def AuthService.register (f : Faults) (cfg : Config) (now : Nat)
    (input : RegisterInput) (s : DBState) : Except AuthErr (User × TokenPair) × DBState :=
  if validateEmail input.email = false then (.error .invalidEmail, s)
  else if validateUsername input.username = false then (.error .invalidUsername, s)
  else if validatePasswordStrength input.password = false then (.error .weakPassword, s)
  else if f.existsEmailFails then (.error .failedCheckEmail, s)
  else if existsByEmail s.users input.email then (.error .emailAlreadyRegistered, s)
  else if f.existsUsernameFails then (.error .failedCheckUsername, s)
  else if existsByUsername s.users input.username then (.error .usernameAlreadyTaken, s)
  else
    match hashPassword f input.password with
    | .error e => (.error e, s)
    | .ok passwordHash =>
      if f.userCreateFails then (.error .failedCreateUser, s)
      else
        match AuthService.generateTokenPair f cfg now
            (registerUser input passwordHash s) "" ""
            { s with users := s.users ++ [registerUser input passwordHash s] } with
        | (.error _, s2) => (.error .failedGenerateTokens, s2)
        | (.ok tp, s2) => (.ok (registerUser input passwordHash s, tp), s2)

/-- The state after the successful-login bookkeeping: the attempt counter
is deleted, and the last-login update is persisted unless the UPDATE
errored (the source discards that error and keeps going). -/
def loginUpdateState (f : Faults) (ident : String) (user1 : User) (s : DBState) : DBState :=
  if f.userUpdateFails then resetLoginAttempts s ident
  else { resetLoginAttempts s ident with
         users := replaceUser (resetLoginAttempts s ident).users user1 }

/-- The body of AuthService.Login after the rate-limit gate: user lookup,
active check, password check, counter reset, last-login update (its error
is ignored by the source), token pair issuance. -/
def AuthService.loginCore (f : Faults) (cfg : Config) (now : Nat)
    (input : LoginInput) (s : DBState) : Except AuthErr (User × TokenPair) × DBState :=
  match findByEmailOrUsername s.users input.emailOrUsername with
  | none => (.error .invalidCredentials, incrementLoginAttempts s now input.emailOrUsername)
  | some user =>
    if user.isActive = false then (.error .accountInactive, s)
    else if comparePassword user.passwordHash input.password = false then
      (.error .invalidCredentials, incrementLoginAttempts s now input.emailOrUsername)
    else
      match AuthService.generateTokenPair f cfg now { user with lastLoginAt := some now }
          input.ipAddress input.userAgent
          (loginUpdateState f input.emailOrUsername { user with lastLoginAt := some now } s) with
      | (.error _, s3) => (.error .failedGenerateTokens, s3)
      | (.ok tp, s3) => (.ok ({ user with lastLoginAt := some now }, tp), s3)

/-- AuthService.Login: the rate-limit gate applies only when the cache
read returned without error and reported at least 5 attempts (the source
tests err == nil together with the threshold). -/
def AuthService.login (f : Faults) (cfg : Config) (now : Nat)
    (input : LoginInput) (s : DBState) : Except AuthErr (User × TokenPair) × DBState :=
  if !f.getAttemptsFails && decide (5 ≤ getLoginAttempts s now input.emailOrUsername)
  then (.error .tooManyAttempts, s)
  else AuthService.loginCore f cfg now input s

/-- AuthService.RefreshToken: codec validation, ledger lookup, ledger
validity, user re-fetch by the claim user id, active check, then a fresh
access token.  No state is written. -/
def AuthService.refreshToken (cfg : Config) (now : Nat) (tok : TokenStr)
    (s : DBState) : Except AuthErr TokenStr × DBState :=
  match JWTService.validateToken cfg now tok with
  | .error _ => (.error .invalidRefreshToken, s)
  | .ok claims =>
    match findTokenRec s.tokens tok with
    | none => (.error .refreshTokenNotFound, s)
    | some rcd =>
      if rcd.IsValid now = false then (.error .refreshTokenInvalidOrExpired, s)
      else
        match findByID s.users claims.userID with
        | none => (.error .userNotFound, s)
        | some user =>
          if user.isActive = false then (.error .accountInactive, s)
          else (.ok (JWTService.generateAccessToken cfg now user), s)

/-- AuthService.Logout: revoke the ledger row (propagating only a
transport error of the UPDATE), then blacklist the access token for its
remaining validity when the codec still accepts it; a codec failure or a
non-positive remaining TTL skips blacklisting without an error. -/
def AuthService.logout (f : Faults) (cfg : Config) (now : Nat)
    (refreshTok accessTok : TokenStr) (s : DBState) : Except AuthErr Unit × DBState :=
  if f.revokeTokenFails then (.error .failedRevokeRefreshToken, s)
  else
    match JWTService.getTokenExpiry cfg now accessTok with
    | .error _ => (.ok (), { s with tokens := revokeTokenRecs s.tokens refreshTok })
    | .ok expiry =>
      if now < expiry then
        (.ok (), blacklistToken { s with tokens := revokeTokenRecs s.tokens refreshTok }
          accessTok expiry)
      else (.ok (), { s with tokens := revokeTokenRecs s.tokens refreshTok })

/-- AuthService.LogoutAll: revoke every active ledger row of the user,
propagating a transport error. -/
def AuthService.logoutAll (f : Faults) (uid : Nat) (s : DBState) :
    Except AuthErr Unit × DBState :=
  if f.revokeAllFails then (.error .failedRevokeAllUserTokens, s)
  else (.ok (), { s with tokens := revokeAllUserRecs s.tokens uid })

/-- AuthService.ChangePassword: fetch, verify the old password, validate
strength, hash, persist the new hash (propagating an UPDATE error), then
revoke all refresh tokens of the user; the source discards the error of
that final revocation. -/
def AuthService.changePassword (f : Faults) (uid : Nat)
    (oldPassword newPassword : String) (s : DBState) : Except AuthErr Unit × DBState :=
  match findByID s.users uid with
  | none => (.error .userNotFound, s)
  | some user =>
    if comparePassword user.passwordHash oldPassword = false then
      (.error .invalidCurrentPassword, s)
    else if validatePasswordStrength newPassword = false then (.error .weakPassword, s)
    else
      match hashPassword f newPassword with
      | .error e => (.error e, s)
      | .ok passwordHash =>
        if f.userUpdateFails then (.error .failedUpdatePassword, s)
        else if f.revokeAllFails then
          (.ok (), { s with users := replaceUser s.users { user with passwordHash := passwordHash } })
        else
          (.ok (), { s with
                     users := replaceUser s.users { user with passwordHash := passwordHash }
                     tokens := revokeAllUserRecs s.tokens uid })

/-- AuthService.ValidateToken: the blacklist rejection applies only when
the cache read returned without error (the source tests err == nil with
the flag); then codec validation, user re-fetch, active check. -/
def AuthService.validateToken (f : Faults) (cfg : Config) (now : Nat)
    (tok : TokenStr) (s : DBState) : Except AuthErr User × DBState :=
  if !f.isBlacklistedFails && isTokenBlacklisted s now tok then
    (.error .tokenRevoked, s)
  else
    match JWTService.validateToken cfg now tok with
    | .error e => (.error e, s)
    | .ok claims =>
      match findByID s.users claims.userID with
      | none => (.error .userNotFound, s)
      | some user =>
        if user.isActive = false then (.error .accountInactive, s)
        else (.ok user, s)

/-- The operations of the session manager, used to state state-machine
invariants over every entry point of the core. -/
inductive Op
  | register (input : RegisterInput)
  | login (input : LoginInput)
  | refresh (tok : TokenStr)
  | logout (refreshTok accessTok : TokenStr)
  | logoutAll (uid : Nat)
  | changePassword (uid : Nat) (oldPw newPw : String)
  | validate (tok : TokenStr)

/-- The state reached by running one session-manager operation. -/
def applyOp (f : Faults) (cfg : Config) (now : Nat) : Op → DBState → DBState
  | .register input, s => (AuthService.register f cfg now input s).2
  | .login input, s => (AuthService.login f cfg now input s).2
  | .refresh tok, s => (AuthService.refreshToken cfg now tok s).2
  | .logout rt atk, s => (AuthService.logout f cfg now rt atk s).2
  | .logoutAll uid, s => (AuthService.logoutAll f uid s).2
  | .changePassword uid o n, s => (AuthService.changePassword f uid o n s).2
  | .validate tok, s => (AuthService.validateToken f cfg now tok s).2

/-- Monotone evolution of the refresh token ledger: an existing row keeps
its expiry and never loses its revoked mark, and a row that appears under
a token string that had no row before is unrevoked. -/
def TokensEvolve (old new : List RefreshTokenRec) : Prop :=
  (∀ t r, findTokenRec old t = some r →
     ∃ r2, findTokenRec new t = some r2 ∧ r2.expiresAt = r.expiresAt ∧
       (r.isRevoked = true → r2.isRevoked = true)) ∧
  (∀ t r2, findTokenRec old t = none → findTokenRec new t = some r2 →
     r2.isRevoked = false)

/-- A user found by id carries that id. -/
theorem findByID_id {users : List User} {id : Nat} {u : User}
    (h : findByID users id = some u) : u.id = id := by
  induction users with
  | nil => cases h
  | cons v tl ih =>
    by_cases hv : v.id = id
    · rw [findByID, if_pos hv] at h
      cases h
      exact hv
    · rw [findByID, if_neg hv] at h
      exact ih h

/-- Ledger lookup distributes over append. -/
theorem findTokenRec_append (l1 l2 : List RefreshTokenRec) (t : TokenStr) :
    findTokenRec (l1 ++ l2) t =
      (match findTokenRec l1 t with
       | some r => some r
       | none => findTokenRec l2 t) := by
  induction l1 with
  | nil => simp [findTokenRec]
  | cons r tl ih =>
    by_cases h : r.token = t <;> simp [findTokenRec, h, ih]

/-- Ledger lookup commutes with a row transformation that preserves the
token column. -/
theorem findTokenRec_map (g : RefreshTokenRec → RefreshTokenRec)
    (hg : ∀ r, (g r).token = r.token) (tks : List RefreshTokenRec) (t : TokenStr) :
    findTokenRec (tks.map g) t = (findTokenRec tks t).map g := by
  induction tks with
  | nil => rfl
  | cons r tl ih =>
    simp only [List.map_cons, findTokenRec]
    by_cases h : r.token = t
    · rw [if_pos (show (g r).token = t by rw [hg]; exact h), if_pos h]
      rfl
    · rw [if_neg (show ¬(g r).token = t by rw [hg]; exact h), if_neg h, ih]

/-- Ledger lookup after RevokeToken: the found row is the original row
with the revocation update applied. -/
theorem findTokenRec_revoke (tks : List RefreshTokenRec) (t t2 : TokenStr) :
    findTokenRec (revokeTokenRecs tks t2) t =
      (findTokenRec tks t).map
        (fun r => if r.token = t2 then { r with isRevoked := true } else r) := by
  refine findTokenRec_map _ (fun r => ?_) tks t
  by_cases h : r.token = t2 <;> simp [h]

/-- Ledger lookup after RevokeAllUserTokens: the found row is the original
row with the revocation update applied. -/
theorem findTokenRec_revokeAll (tks : List RefreshTokenRec) (t : TokenStr) (uid : Nat) :
    findTokenRec (revokeAllUserRecs tks uid) t =
      (findTokenRec tks t).map
        (fun r => if r.userID = uid ∧ r.isRevoked = false
                  then { r with isRevoked := true } else r) := by
  refine findTokenRec_map _ (fun r => ?_) tks t
  by_cases h : r.userID = uid ∧ r.isRevoked = false <;> simp [h]

/-- The ledger evolves monotonically when it is left unchanged. -/
theorem tokensEvolve_refl (tks : List RefreshTokenRec) : TokensEvolve tks tks := by
  constructor
  · intro t r h
    exact ⟨r, h, rfl, fun h2 => h2⟩
  · intro t r2 h h2
    rw [h] at h2
    cases h2

/-- The ledger evolves monotonically under insertion of a fresh unrevoked
row. -/
theorem tokensEvolve_append (tks : List RefreshTokenRec) (rcd : RefreshTokenRec)
    (hnew : findTokenRec tks rcd.token = none) (hrev : rcd.isRevoked = false) :
    TokensEvolve tks (tks ++ [rcd]) := by
  constructor
  · intro t r h
    refine ⟨r, ?_, rfl, fun h2 => h2⟩
    rw [findTokenRec_append, h]
  · intro t r2 h h2
    rw [findTokenRec_append, h] at h2
    by_cases hc : rcd.token = t
    · rw [findTokenRec, if_pos hc] at h2
      cases h2
      exact hrev
    · rw [findTokenRec, if_neg hc] at h2
      cases h2

/-- The ledger evolves monotonically under RevokeToken. -/
theorem tokensEvolve_revoke (tks : List RefreshTokenRec) (t2 : TokenStr) :
    TokensEvolve tks (revokeTokenRecs tks t2) := by
  constructor
  · intro t r h
    refine ⟨if r.token = t2 then { r with isRevoked := true } else r, ?_, ?_, ?_⟩
    · rw [findTokenRec_revoke, h]
      rfl
    · by_cases h2 : r.token = t2 <;> simp [h2]
    · intro hrev
      by_cases h2 : r.token = t2 <;> simp [h2, hrev]
  · intro t r2 h h2
    rw [findTokenRec_revoke, h] at h2
    cases h2

/-- The ledger evolves monotonically under RevokeAllUserTokens. -/
theorem tokensEvolve_revokeAll (tks : List RefreshTokenRec) (uid : Nat) :
    TokensEvolve tks (revokeAllUserRecs tks uid) := by
  constructor
  · intro t r h
    refine ⟨if r.userID = uid ∧ r.isRevoked = false then { r with isRevoked := true } else r,
      ?_, ?_, ?_⟩
    · rw [findTokenRec_revokeAll, h]
      rfl
    · by_cases h2 : r.userID = uid ∧ r.isRevoked = false <;> simp [h2]
    · intro hrev
      by_cases h2 : r.userID = uid ∧ r.isRevoked = false <;> simp [h2, hrev]
  · intro t r2 h h2
    rw [findTokenRec_revokeAll, h] at h2
    cases h2

/-- The ledger evolves monotonically under tokenRepository.Create. -/
theorem tokensEvolve_create (f : Faults) (rcd : RefreshTokenRec)
    (hrev : rcd.isRevoked = false) (s : DBState) :
    TokensEvolve s.tokens (tokenRepoCreate f rcd s).2.tokens := by
  unfold tokenRepoCreate
  split
  · exact tokensEvolve_refl _
  · split
    · exact tokensEvolve_refl _
    · next hnew => exact tokensEvolve_append _ _ hnew hrev

/-- The ledger evolves monotonically under generateTokenPair (the only
writer of new ledger rows). -/
theorem tokensEvolve_generateTokenPair (f : Faults) (cfg : Config) (now : Nat)
    (u : User) (ip ua : String) (s : DBState) :
    TokensEvolve s.tokens (AuthService.generateTokenPair f cfg now u ip ua s).2.tokens := by
  have h := tokensEvolve_create f (refreshTokenRow cfg now u ip ua) rfl s
  unfold AuthService.generateTokenPair
  split
  · next heq => rw [heq] at h; exact h
  · next heq => rw [heq] at h; exact h

/-- Equation form of the previous lemma, for use inside case splits. -/
theorem tokensEvolve_of_gtp_eq {f : Faults} {cfg : Config} {now : Nat}
    {u : User} {ip ua : String} {s : DBState} {r : Except AuthErr TokenPair} {s2 : DBState}
    (heq : AuthService.generateTokenPair f cfg now u ip ua s = (r, s2)) :
    TokensEvolve s.tokens s2.tokens := by
  have h := tokensEvolve_generateTokenPair f cfg now u ip ua s
  rw [heq] at h
  exact h

/-- The attempt-counter increment never touches the ledger. -/
theorem incrementLoginAttempts_tokens (s : DBState) (now : Nat) (ident : String) :
    (incrementLoginAttempts s now ident).tokens = s.tokens := by
  unfold incrementLoginAttempts
  split <;> rfl

/-- The successful-login bookkeeping never touches the ledger. -/
theorem loginUpdateState_tokens (f : Faults) (ident : String) (user1 : User)
    (s : DBState) : (loginUpdateState f ident user1 s).tokens = s.tokens := by
  unfold loginUpdateState
  split <;> rfl

/-- RefreshToken writes no state at all. -/
theorem refreshToken_state (cfg : Config) (now : Nat) (tok : TokenStr) (s : DBState) :
    (AuthService.refreshToken cfg now tok s).2 = s := by
  unfold AuthService.refreshToken
  repeat' split
  all_goals rfl

/-- ValidateToken writes no state at all. -/
theorem validateToken_state (f : Faults) (cfg : Config) (now : Nat)
    (tok : TokenStr) (s : DBState) :
    (AuthService.validateToken f cfg now tok s).2 = s := by
  unfold AuthService.validateToken
  repeat' split
  all_goals rfl

/-- C10: revocation is permanent — every session-manager operation
evolves the refresh token ledger monotonically: an existing row keeps its
expiry and never drops its revoked mark, and any row appearing under a
previously unknown token string is created unrevoked. -/
theorem revocation_permanent (f : Faults) (cfg : Config) (now : Nat)
    (op : Op) (s : DBState) :
    TokensEvolve s.tokens (applyOp f cfg now op s).tokens := by
  cases op with
  | register input =>
    show TokensEvolve s.tokens (AuthService.register f cfg now input s).2.tokens
    unfold AuthService.register
    repeat' split
    all_goals try exact tokensEvolve_refl _
    all_goals next heq =>
      have h := tokensEvolve_of_gtp_eq heq
      exact h
  | login input =>
    show TokensEvolve s.tokens (AuthService.login f cfg now input s).2.tokens
    unfold AuthService.login AuthService.loginCore
    repeat' split
    all_goals try exact tokensEvolve_refl _
    all_goals try (rw [incrementLoginAttempts_tokens]; exact tokensEvolve_refl _)
    all_goals next heq =>
      have h := tokensEvolve_of_gtp_eq heq
      rw [loginUpdateState_tokens] at h
      exact h
  | refresh tok =>
    show TokensEvolve s.tokens (AuthService.refreshToken cfg now tok s).2.tokens
    rw [refreshToken_state]
    exact tokensEvolve_refl _
  | logout rt atk =>
    show TokensEvolve s.tokens (AuthService.logout f cfg now rt atk s).2.tokens
    unfold AuthService.logout
    repeat' split
    all_goals try exact tokensEvolve_refl _
    all_goals try exact tokensEvolve_revoke _ _
  | logoutAll uid =>
    show TokensEvolve s.tokens (AuthService.logoutAll f uid s).2.tokens
    unfold AuthService.logoutAll
    split
    · exact tokensEvolve_refl _
    · exact tokensEvolve_revokeAll _ _
  | changePassword uid o n =>
    show TokensEvolve s.tokens (AuthService.changePassword f uid o n s).2.tokens
    unfold AuthService.changePassword
    repeat' split
    all_goals try exact tokensEvolve_refl _
    all_goals try exact tokensEvolve_revokeAll _ _
  | validate tok =>
    show TokensEvolve s.tokens (AuthService.validateToken f cfg now tok s).2.tokens
    rw [validateToken_state]
    exact tokensEvolve_refl _

/-- A configuration with the recommended defaults: a 32-byte secret, a 15
minute access TTL, a 7 day refresh TTL. -/
def cfg0 : Config :=
  { secret := "0123456789abcdef0123456789abcdef"
    accessExpiry := 900
    refreshExpiry := 604800 }

/-- The empty world. -/
def emptyState : DBState :=
  { users := [], tokens := [], blacklist := [], loginAttempts := [] }

/-- The registration scenario input of the spec. -/
def regInput0 : RegisterInput :=
  { email := "alice@example.com", username := "alice", password := "Str0ng!Pass" }

/-- A registration input with a weak password. -/
def regInputWeak : RegisterInput :=
  { email := "bob@example.com", username := "bob", password := "short" }

/-- The user row Register creates for regInput0 on the empty world. -/
def alice0 : User :=
  { id := 1
    email := "alice@example.com"
    username := "alice"
    passwordHash := "bcrypt$Str0ng!Pass"
    isActive := true
    role := "user"
    lastLoginAt := none }

/-- An existing but inactive user. -/
def bobInactive : User :=
  { id := 1
    email := "bob@example.com"
    username := "bob"
    passwordHash := "bcrypt$Oldpass1!"
    isActive := false
    role := "user"
    lastLoginAt := none }

/-- An active user for the change-password scenario. -/
def carol0 : User :=
  { id := 1
    email := "carol@example.com"
    username := "carol"
    passwordHash := "bcrypt$Oldpass1!"
    isActive := true
    role := "user"
    lastLoginAt := none }

/-- A refresh-token persistence fault (the ledger INSERT errors). -/
def faultsTokenCreate : Faults := { noFaults with tokenCreateFails := true }

/-- A revoke-all transport fault (the ledger UPDATE errors). -/
def faultsRevokeAll : Faults := { noFaults with revokeAllFails := true }

/-- A world holding only the inactive user. -/
def stInactive : DBState :=
  { users := [bobInactive], tokens := [], blacklist := [], loginAttempts := [] }

/-- A live ledger row for carol, issued at time 500. -/
def carolTokenRow : RefreshTokenRec := refreshTokenRow cfg0 500 carol0 "ip" "ua"

/-- A world holding carol and her live refresh token. -/
def stCarol : DBState :=
  { users := [carol0], tokens := [carolTokenRow], blacklist := [], loginAttempts := [] }

/-- The login attempt against the inactive account. -/
def loginInputBob : LoginInput :=
  { emailOrUsername := "bob", password := "Oldpass1!", ipAddress := "", userAgent := "" }

/-- A login attempt for carol. -/
def loginInputCarol : LoginInput :=
  { emailOrUsername := "carol", password := "Oldpass1!", ipAddress := "", userAgent := "" }

/-- A world in which the identifier carol is rate limited: 7 failed
attempts recorded, window open until time 2000. -/
def stRateLimited : DBState :=
  { users := [carol0]
    tokens := []
    blacklist := []
    loginAttempts := [("carol", 7, 2000)] }

/-- A syntactically malformed token string. -/
def tokMalformed : TokenStr := .malformed "not-a-jwt"

/-- Carol's ledger row after revocation. -/
def carolTokenRowRevoked : RefreshTokenRec := { carolTokenRow with isRevoked := true }

/-- A world holding carol and her revoked refresh token. -/
def stCarolRevoked : DBState :=
  { users := [carol0], tokens := [carolTokenRowRevoked], blacklist := [], loginAttempts := [] }

/-- A cache-read fault on the rate-limit counter. -/
def faultsGetAttempts : Faults := { noFaults with getAttemptsFails := true }

/-- A cache-read fault on the blacklist check. -/
def faultsBlacklist : Faults := { noFaults with isBlacklistedFails := true }

/-- A transport fault on the user UPDATE. -/
def faultsUserUpdate : Faults := { noFaults with userUpdateFails := true }

/-- The codec wrapper only ever produces the failed-to-parse error. -/
theorem validateToken_error_shape {cfg : Config} {now : Nat} {tok : TokenStr}
    {e : AuthErr} (h : JWTService.validateToken cfg now tok = .error e) :
    e = .failedToParseToken := by
  unfold JWTService.validateToken at h
  split at h
  · cases h
    rfl
  · cases h

/-- generateTokenPair never touches the users table. -/
theorem generateTokenPair_users (f : Faults) (cfg : Config) (now : Nat)
    (u : User) (ip ua : String) (s : DBState) :
    ((AuthService.generateTokenPair f cfg now u ip ua s).2).users = s.users := by
  unfold AuthService.generateTokenPair
  split
  all_goals rename_i heq
  all_goals unfold tokenRepoCreate at heq
  all_goals split at heq
  · injection heq with h1 h2
    rw [← h2]
  · split at heq
    · injection heq with h1 h2
      rw [← h2]
    · injection heq with h1 h2
      cases h1
  · injection heq with h1 h2
    cases h1
  · split at heq
    · injection heq with h1 h2
      cases h1
    · injection heq with h1 h2
      rw [← h2]

/-- Equation form of the previous lemma, for use inside case splits. -/
theorem gtp_users_eq {f : Faults} {cfg : Config} {now : Nat} {u : User}
    {ip ua : String} {s : DBState} {r : Except AuthErr TokenPair} {s2 : DBState}
    (heq : AuthService.generateTokenPair f cfg now u ip ua s = (r, s2)) :
    s2.users = s.users := by
  have h := generateTokenPair_users f cfg now u ip ua s
  rw [heq] at h
  exact h

/-- Trichotomy of Register runs: either the users table is untouched, or
a user row was appended and the run either succeeded or died wrapping the
token-pair failure. -/
theorem register_cases (f : Faults) (cfg : Config) (now : Nat)
    (input : RegisterInput) (s : DBState) :
    (((AuthService.register f cfg now input s).1 = .error .failedGenerateTokens ∨
        (∃ u tp, (AuthService.register f cfg now input s).1 = .ok (u, tp))) ∧
      ∃ u, ((AuthService.register f cfg now input s).2).users = s.users ++ [u]) ∨
    ((AuthService.register f cfg now input s).2).users = s.users := by
  unfold AuthService.register
  by_cases h1 : validateEmail input.email = false
  · rw [if_pos h1]; right; rfl
  · rw [if_neg h1]
    by_cases h2 : validateUsername input.username = false
    · rw [if_pos h2]; right; rfl
    · rw [if_neg h2]
      by_cases h3 : validatePasswordStrength input.password = false
      · rw [if_pos h3]; right; rfl
      · rw [if_neg h3]
        by_cases h4 : f.existsEmailFails = true
        · rw [if_pos h4]; right; rfl
        · rw [if_neg h4]
          by_cases h5 : existsByEmail s.users input.email = true
          · rw [if_pos h5]; right; rfl
          · rw [if_neg h5]
            by_cases h6 : f.existsUsernameFails = true
            · rw [if_pos h6]; right; rfl
            · rw [if_neg h6]
              by_cases h7 : existsByUsername s.users input.username = true
              · rw [if_pos h7]; right; rfl
              · rw [if_neg h7]
                cases hh : hashPassword f input.password with
                | error e => right; rfl
                | ok ph =>
                  dsimp only
                  by_cases h8 : f.userCreateFails = true
                  · rw [if_pos h8]; right; rfl
                  · rw [if_neg h8]
                    rcases hg : AuthService.generateTokenPair f cfg now
                        (registerUser input ph s) "" ""
                        { s with users := s.users ++ [registerUser input ph s] }
                      with ⟨r, s2⟩
                    cases r with
                    | error a =>
                      left
                      exact ⟨Or.inl rfl, registerUser input ph s, gtp_users_eq hg⟩
                    | ok tp =>
                      left
                      exact ⟨Or.inr ⟨registerUser input ph s, tp, rfl⟩,
                        registerUser input ph s, gtp_users_eq hg⟩

/-- C1 counterexample: with every pre-creation step passing and the
refresh-token INSERT failing, Register returns an error yet the user row
has been created and remains in the credential store, contradicting the
claim that failure of any step leaves the store without the new user. -/
theorem register_failure_after_create_persists_user :
    (AuthService.register faultsTokenCreate cfg0 1000 regInput0 emptyState).1
        = .error .failedGenerateTokens ∧
      ((AuthService.register faultsTokenCreate cfg0 1000 regInput0 emptyState).2).users
        = [alice0] := by
  constructor
  · decide
  · decide

/-- C1 (amended): a Register call that returns an error leaves the users
table unchanged, except when the failure is the wrapped token-issuance
failure after user creation, in which case exactly the new user row
remains. -/
theorem register_error_store_effect (f : Faults) (cfg : Config) (now : Nat)
    (input : RegisterInput) (s : DBState) (e : AuthErr)
    (he : (AuthService.register f cfg now input s).1 = .error e) :
    ((AuthService.register f cfg now input s).2).users = s.users ∨
      (e = .failedGenerateTokens ∧
        ∃ u, ((AuthService.register f cfg now input s).2).users = s.users ++ [u]) := by
  rcases register_cases f cfg now input s with ⟨hcls, u, hu⟩ | hsame
  · right
    rcases hcls with h | ⟨u2, tp, h⟩
    · rw [he] at h
      cases h
      exact ⟨rfl, u, hu⟩
    · rw [he] at h
      cases h
  · left
    exact hsame

/-- C1 witness: a weak-password rejection leaves the empty store empty. -/
theorem register_error_store_effect_witness :
    ((AuthService.register noFaults cfg0 1000 regInputWeak emptyState).2).users
        = emptyState.users ∨
      (AuthErr.weakPassword = .failedGenerateTokens ∧
        ∃ u, ((AuthService.register noFaults cfg0 1000 regInputWeak emptyState).2).users
          = emptyState.users ++ [u]) :=
  register_error_store_effect noFaults cfg0 1000 regInputWeak emptyState
    .weakPassword (by decide)

/-- C3 counterexample: a login against an existing inactive account
returns the account-inactive failure with the whole state unchanged,
in particular the attempt counter for the identifier is not incremented,
contradicting the claim. -/
theorem login_inactive_counterexample :
    AuthService.login noFaults cfg0 1000 loginInputBob stInactive
      = (.error .accountInactive, stInactive) := by
  decide

/-- C3 (amended): when the identifier resolves to an existing inactive
user and the rate-limit gate does not fire, Login returns the
account-inactive failure with the state unchanged: the attempt counter is
not incremented on this path. -/
theorem login_inactive_no_increment (f : Faults) (cfg : Config) (now : Nat)
    (input : LoginInput) (s : DBState) (u : User)
    (hgate : (!f.getAttemptsFails &&
        decide (5 ≤ getLoginAttempts s now input.emailOrUsername)) = false)
    (hfind : findByEmailOrUsername s.users input.emailOrUsername = some u)
    (hinact : u.isActive = false) :
    AuthService.login f cfg now input s = (.error .accountInactive, s) := by
  unfold AuthService.login
  rw [hgate]
  unfold AuthService.loginCore
  rw [hfind]
  simp [hinact]

/-- C3 witness: the concrete inactive-account login of the
counterexample, through the amended theorem. -/
theorem login_inactive_no_increment_witness :
    AuthService.login noFaults cfg0 1000 loginInputBob stInactive
      = (.error .accountInactive, stInactive) :=
  login_inactive_no_increment noFaults cfg0 1000 loginInputBob stInactive bobInactive
    (by decide) (by decide) (by decide)

/-- C4 counterexample: with the revoke-all UPDATE failing, ChangePassword
still reports success and the refresh token row stays unrevoked — the
operation continues as if the revocation had succeeded instead of failing
with an infrastructure error. -/
theorem changePassword_ignores_revokeAll_error :
    (AuthService.changePassword faultsRevokeAll 1 "Oldpass1!" "Newpass1!" stCarol).1
        = .ok () ∧
      ((AuthService.changePassword faultsRevokeAll 1 "Oldpass1!" "Newpass1!" stCarol).2).tokens
        = [carolTokenRow] := by
  constructor
  · decide
  · decide

/-- C4 (amended): the user-update transport error in ChangePassword does
propagate, but the rate-limit cache read error in Login and the blacklist
check error in ValidateToken are swallowed (the operation continues as if
the check had returned nothing), and a revocation transport error in
ChangePassword does not change its result; no distinct
infrastructure-error category exists. -/
theorem transport_error_handling :
    (∀ (f : Faults) (cfg : Config) (now : Nat) (input : LoginInput) (s : DBState),
        f.getAttemptsFails = true →
        AuthService.login f cfg now input s = AuthService.loginCore f cfg now input s) ∧
    (∀ (f : Faults) (cfg : Config) (now : Nat) (tok : TokenStr) (s : DBState),
        f.isBlacklistedFails = true →
        (AuthService.validateToken f cfg now tok s).1 ≠ .error .tokenRevoked) ∧
    (∀ (f : Faults) (uid : Nat) (oldPw newPw : String) (s : DBState),
        (AuthService.changePassword { f with revokeAllFails := true } uid oldPw newPw s).1
          = (AuthService.changePassword { f with revokeAllFails := false } uid oldPw newPw s).1) ∧
    (∀ (f : Faults) (uid : Nat) (oldPw newPw : String) (s : DBState),
        f.userUpdateFails = true →
        (AuthService.changePassword f uid oldPw newPw s).1 ≠ .ok ()) := by
  refine ⟨?_, ?_, ?_, ?_⟩
  · intro f cfg now input s hf
    unfold AuthService.login
    rw [hf]
    rfl
  · intro f cfg now tok s hf
    unfold AuthService.validateToken
    rw [hf]
    simp only [Bool.not_true, Bool.false_and, Bool.false_eq_true, if_false]
    split
    · next e _ heq =>
      have := validateToken_error_shape heq
      simp [this]
    · split
      · simp
      · split <;> simp
  · intro f uid oldPw newPw s
    unfold AuthService.changePassword
    have hh : ∀ b, hashPassword { f with revokeAllFails := b } newPw = hashPassword f newPw :=
      fun b => rfl
    cases hfind : findByID s.users uid with
    | none => rfl
    | some user =>
      by_cases hcmp : comparePassword user.passwordHash oldPw = false
      · simp [hcmp]
      · simp only [hcmp, if_false]
        by_cases hstr : validatePasswordStrength newPw = false
        · simp [hstr]
        · simp only [hstr, if_false, hh]
          cases hhash : hashPassword f newPw with
          | error e => rfl
          | ok ph =>
            by_cases hupd : f.userUpdateFails = true
            · simp [hupd]
            · simp [hupd]
  · intro f uid oldPw newPw s hf
    unfold AuthService.changePassword
    repeat' split
    all_goals simp_all

/-- C4 witness: each component of the amended theorem at a concrete
input. -/
theorem transport_error_handling_witness :
    AuthService.login faultsGetAttempts cfg0 1000 loginInputBob stInactive
        = AuthService.loginCore faultsGetAttempts cfg0 1000 loginInputBob stInactive ∧
      (AuthService.validateToken faultsBlacklist cfg0 1000 tokMalformed stCarol).1
        ≠ .error .tokenRevoked ∧
      (AuthService.changePassword { noFaults with revokeAllFails := true }
          1 "Oldpass1!" "Newpass1!" stCarol).1
        = (AuthService.changePassword { noFaults with revokeAllFails := false }
            1 "Oldpass1!" "Newpass1!" stCarol).1 ∧
      (AuthService.changePassword faultsUserUpdate 1 "Oldpass1!" "Newpass1!" stCarol).1
        ≠ .ok () :=
  ⟨transport_error_handling.1 faultsGetAttempts cfg0 1000 loginInputBob stInactive rfl,
   transport_error_handling.2.1 faultsBlacklist cfg0 1000 tokMalformed stCarol rfl,
   transport_error_handling.2.2.1 noFaults 1 "Oldpass1!" "Newpass1!" stCarol,
   transport_error_handling.2.2.2 faultsUserUpdate 1 "Oldpass1!" "Newpass1!" stCarol rfl⟩

/-- C5: with the counter cache healthy, an identifier at or above 5
recorded attempts makes Login fail immediately with the too-many-attempts
error and no state change, for every credential-store content and every
password; and when the counter key is absent (the 15-minute window
elapsed or never started), Login proceeds to the normal evaluation. -/
theorem rate_limit_gate :
    (∀ f cfg now input s, f.getAttemptsFails = false →
        5 ≤ getLoginAttempts s now input.emailOrUsername →
        AuthService.login f cfg now input s = (.error .tooManyAttempts, s)) ∧
    (∀ f cfg now input s,
        lookupAttemptEntry s.loginAttempts now input.emailOrUsername = none →
        AuthService.login f cfg now input s = AuthService.loginCore f cfg now input s) := by
  constructor
  · intro f cfg now input s hf h
    unfold AuthService.login
    rw [hf]
    simp [h]
  · intro f cfg now input s h
    unfold AuthService.login
    have h0 : getLoginAttempts s now input.emailOrUsername = 0 := by
      unfold getLoginAttempts
      rw [h]
    rw [h0]
    simp

/-- C5 witness: the rate-limited identifier fails immediately on a world
with 7 recorded attempts, and an absent counter proceeds normally. -/
theorem rate_limit_gate_witness :
    AuthService.login noFaults cfg0 1000 loginInputCarol stRateLimited
        = (.error .tooManyAttempts, stRateLimited) ∧
      AuthService.login noFaults cfg0 1000 loginInputBob stInactive
        = AuthService.loginCore noFaults cfg0 1000 loginInputBob stInactive :=
  ⟨rate_limit_gate.1 noFaults cfg0 1000 loginInputCarol stRateLimited rfl (by decide),
   rate_limit_gate.2 noFaults cfg0 1000 loginInputBob stInactive (by decide)⟩

/-- C9: generating an access token and verifying it with the same secret
at any instant in its validity window succeeds and returns the access
claims, whose user id, email, username and role equal the user fields,
with subject the stringified user id and issuer the fixed service name. -/
theorem access_token_roundtrip (cfg : Config) (u : User) (now now2 : Nat)
    (hge : now ≤ now2) (hlt : now2 < now + cfg.accessExpiry) :
    JWTService.validateToken cfg now2 (JWTService.generateAccessToken cfg now u)
        = .ok (accessClaims cfg now u) ∧
      (accessClaims cfg now u).userID = u.id ∧
      (accessClaims cfg now u).email = u.email ∧
      (accessClaims cfg now u).username = u.username ∧
      (accessClaims cfg now u).role = u.role ∧
      (accessClaims cfg now u).subject = toString u.id ∧
      (accessClaims cfg now u).issuer = "inkstack-auth" := by
  refine ⟨?_, rfl, rfl, rfl, rfl, rfl, rfl⟩
  have h1 : ¬ ((accessClaims cfg now u).expiresAt ≤ now2) := by
    show ¬ (now + cfg.accessExpiry ≤ now2)
    omega
  have h2 : ¬ (now2 < (accessClaims cfg now u).notBefore) := by
    show ¬ (now2 < now)
    omega
  simp [JWTService.validateToken, parseWithClaims, JWTService.generateAccessToken, h1, h2]

/-- C9 witness: the concrete round trip for alice at time 100. -/
theorem access_token_roundtrip_witness :
    JWTService.validateToken cfg0 100 (JWTService.generateAccessToken cfg0 100 alice0)
        = .ok (accessClaims cfg0 100 alice0) ∧
      (accessClaims cfg0 100 alice0).userID = alice0.id ∧
      (accessClaims cfg0 100 alice0).email = alice0.email ∧
      (accessClaims cfg0 100 alice0).username = alice0.username ∧
      (accessClaims cfg0 100 alice0).role = alice0.role ∧
      (accessClaims cfg0 100 alice0).subject = toString alice0.id ∧
      (accessClaims cfg0 100 alice0).issuer = "inkstack-auth" :=
  access_token_roundtrip cfg0 alice0 100 100 (by decide) (by decide)

/-- C2: a refresh token has the same claim shape, signing method and
secret as an access token, so the codec accepts it inside its validity
window; consequently the session-manager ValidateToken accepts a
non-blacklisted refresh token of an existing active user as an access
token and returns that user. -/
theorem refresh_token_accepted_as_access (cfg : Config) (u : User) (s : DBState)
    (now now2 : Nat) (hge : now ≤ now2) (hlt : now2 < now + cfg.refreshExpiry)
    (hfind : findByID s.users u.id = some u) (hact : u.isActive = true)
    (hbl : isTokenBlacklisted s now2 (JWTService.generateRefreshToken cfg now u).1 = false) :
    JWTService.validateToken cfg now2 (JWTService.generateRefreshToken cfg now u).1
        = .ok (refreshClaims cfg now u) ∧
      (AuthService.validateToken noFaults cfg now2
          (JWTService.generateRefreshToken cfg now u).1 s).1 = .ok u := by
  have h1 : ¬ ((refreshClaims cfg now u).expiresAt ≤ now2) := by
    show ¬ (now + cfg.refreshExpiry ≤ now2)
    omega
  have h2 : ¬ (now2 < (refreshClaims cfg now u).notBefore) := by
    show ¬ (now2 < now)
    omega
  have hv : JWTService.validateToken cfg now2 (JWTService.generateRefreshToken cfg now u).1
      = .ok (refreshClaims cfg now u) := by
    simp [JWTService.validateToken, parseWithClaims, JWTService.generateRefreshToken, h1, h2]
  refine ⟨hv, ?_⟩
  have hid : (refreshClaims cfg now u).userID = u.id := rfl
  unfold AuthService.validateToken
  rw [hbl]
  simp only [Bool.and_false, Bool.false_eq_true, if_false]
  rw [hv]
  simp only [hid]
  rw [hfind]
  simp [hact]

/-- C2 witness: carol's refresh token minted at time 500 validates as an
access token at time 1000. -/
theorem refresh_token_accepted_as_access_witness :
    JWTService.validateToken cfg0 1000 (JWTService.generateRefreshToken cfg0 500 carol0).1
        = .ok (refreshClaims cfg0 500 carol0) ∧
      (AuthService.validateToken noFaults cfg0 1000
          (JWTService.generateRefreshToken cfg0 500 carol0).1 stCarol).1 = .ok carol0 :=
  refresh_token_accepted_as_access cfg0 carol0 stCarol 500 1000
    (by decide) (by decide) (by decide) (by decide) (by decide)

/-- C7: with the ledger UPDATE healthy, Logout always reports success:
a second Logout with the same refresh token also succeeds, an unknown or
already-revoked token string is not an error, and when the codec rejects
the access token (expired or malformed) blacklisting is skipped without
an error, the only state change being the ledger revocation. -/
theorem logout_idempotent (f : Faults) (cfg : Config) (now now2 : Nat)
    (rt atk : TokenStr) (s : DBState) (hf : f.revokeTokenFails = false) :
    (AuthService.logout f cfg now rt atk s).1 = .ok () ∧
      (AuthService.logout f cfg now2 rt atk
          ((AuthService.logout f cfg now rt atk s).2)).1 = .ok () ∧
      (∀ e, JWTService.getTokenExpiry cfg now atk = .error e →
        AuthService.logout f cfg now rt atk s
          = (.ok (), { s with tokens := revokeTokenRecs s.tokens rt })) := by
  have hok : ∀ s2 : DBState, (AuthService.logout f cfg now2 rt atk s2).1 = .ok () := by
    intro s2
    unfold AuthService.logout
    rw [hf]
    simp only [Bool.false_eq_true, if_false]
    split
    · rfl
    · split <;> rfl
  have hok1 : (AuthService.logout f cfg now rt atk s).1 = .ok () := by
    unfold AuthService.logout
    rw [hf]
    simp only [Bool.false_eq_true, if_false]
    split
    · rfl
    · split <;> rfl
  refine ⟨hok1, hok _, ?_⟩
  intro e he
  unfold AuthService.logout
  rw [hf]
  simp only [Bool.false_eq_true, if_false]
  rw [he]

/-- C7 witness: revoking carol's live token with a malformed access token
succeeds, succeeds again, and performs only the ledger revocation. -/
theorem logout_idempotent_witness :
    (AuthService.logout noFaults cfg0 1000 carolTokenRow.token tokMalformed stCarol).1
        = .ok () ∧
      (AuthService.logout noFaults cfg0 1100 carolTokenRow.token tokMalformed
          ((AuthService.logout noFaults cfg0 1000 carolTokenRow.token tokMalformed
            stCarol).2)).1 = .ok () ∧
      AuthService.logout noFaults cfg0 1000 carolTokenRow.token tokMalformed stCarol
        = (.ok (), { stCarol with
            tokens := revokeTokenRecs stCarol.tokens carolTokenRow.token }) := by
  have h := logout_idempotent noFaults cfg0 1000 1100 carolTokenRow.token tokMalformed
    stCarol rfl
  exact ⟨h.1, h.2.1, h.2.2 .failedToParseToken (by decide)⟩

/-- C8: a RefreshToken call mutates nothing — the post-state equals the
pre-state, so an immediately repeated call returns the same result (the
refresh token is not rotated and stays usable), and a successful call
returns exactly a freshly minted access token for the re-fetched active
user. -/
theorem refresh_no_mutation (cfg : Config) (now : Nat) (tok : TokenStr) (s : DBState) :
    (AuthService.refreshToken cfg now tok s).2 = s ∧
      (AuthService.refreshToken cfg now tok ((AuthService.refreshToken cfg now tok s).2)).1
        = (AuthService.refreshToken cfg now tok s).1 ∧
      (∀ a, (AuthService.refreshToken cfg now tok s).1 = .ok a →
        ∃ u, findByID s.users u.id = some u ∧ u.isActive = true ∧
          a = JWTService.generateAccessToken cfg now u) := by
  refine ⟨refreshToken_state cfg now tok s, by rw [refreshToken_state], ?_⟩
  intro a ha
  unfold AuthService.refreshToken at ha
  rcases hv : JWTService.validateToken cfg now tok with e1 | claims
  · rw [hv] at ha
    cases ha
  · rw [hv] at ha
    dsimp only at ha
    rcases hft : findTokenRec s.tokens tok with _ | rcd
    · rw [hft] at ha
      cases ha
    · rw [hft] at ha
      dsimp only at ha
      by_cases hval : rcd.IsValid now = false
      · rw [if_pos hval] at ha
        cases ha
      · rw [if_neg hval] at ha
        rcases hfid : findByID s.users claims.userID with _ | user
        · rw [hfid] at ha
          cases ha
        · rw [hfid] at ha
          dsimp only at ha
          by_cases hact : user.isActive = false
          · rw [if_pos hact] at ha
            cases ha
          · rw [if_neg hact] at ha
            refine ⟨user, ?_, ?_, ?_⟩
            · rw [findByID_id hfid]
              exact hfid
            · cases hbool : user.isActive
              · exact absurd hbool hact
              · rfl
            · cases ha
              rfl

/-- C8 witness: refreshing carol's token leaves the world untouched and
mints exactly the expected access token. -/
theorem refresh_no_mutation_witness :
    (AuthService.refreshToken cfg0 1000 carolTokenRow.token stCarol).2 = stCarol ∧
      ∃ u, findByID stCarol.users u.id = some u ∧ u.isActive = true ∧
        JWTService.generateAccessToken cfg0 1000 carol0
          = JWTService.generateAccessToken cfg0 1000 u :=
  ⟨(refresh_no_mutation cfg0 1000 carolTokenRow.token stCarol).1,
   (refresh_no_mutation cfg0 1000 carolTokenRow.token stCarol).2.2
     (JWTService.generateAccessToken cfg0 1000 carol0) (by decide)⟩

/-- Every RefreshToken failure carries one of the five refresh-path
errors of the source. -/
theorem refreshToken_error_shape (cfg : Config) (now : Nat) (tok : TokenStr)
    (s : DBState) :
    ∀ e, (AuthService.refreshToken cfg now tok s).1 = .error e →
      (e = .invalidRefreshToken ∨ e = .refreshTokenNotFound ∨
        e = .refreshTokenInvalidOrExpired ∨ e = .userNotFound ∨
        e = .accountInactive) := by
  intro e he
  unfold AuthService.refreshToken at he
  split at he
  · dsimp only at he
    injection he with h
    exact Or.inl h.symm
  · split at he
    · dsimp only at he
      injection he with h
      exact Or.inr (Or.inl h.symm)
    · split at he
      · dsimp only at he
        injection he with h
        exact Or.inr (Or.inr (Or.inl h.symm))
      · split at he
        · dsimp only at he
          injection he with h
          exact Or.inr (Or.inr (Or.inr (Or.inl h.symm)))
        · split at he
          · dsimp only at he
            injection he with h
            exact Or.inr (Or.inr (Or.inr (Or.inr h.symm)))
          · dsimp only at he
            simp at he

/-- C6: RefreshToken returns a new access token exactly when the codec
accepts the presented token, a ledger row for the token string exists,
that row is unrevoked with its own expiry in the future, and the user
named by the token claims exists and is active; in every other case the
result is an error of the invalid-refresh class. -/
theorem refresh_token_success_iff (cfg : Config) (now : Nat) (tok : TokenStr)
    (s : DBState) :
    ((∃ a, (AuthService.refreshToken cfg now tok s).1 = .ok a) ↔
      (∃ claims rcd u, JWTService.validateToken cfg now tok = .ok claims ∧
        findTokenRec s.tokens tok = some rcd ∧ rcd.isRevoked = false ∧
        now < rcd.expiresAt ∧ findByID s.users claims.userID = some u ∧
        u.isActive = true)) ∧
    (∀ e, (AuthService.refreshToken cfg now tok s).1 = .error e →
      (e = .invalidRefreshToken ∨ e = .refreshTokenNotFound ∨
        e = .refreshTokenInvalidOrExpired ∨ e = .userNotFound ∨
        e = .accountInactive)) := by
  refine ⟨?_, refreshToken_error_shape cfg now tok s⟩
  unfold AuthService.refreshToken
  rcases hv : JWTService.validateToken cfg now tok with e1 | claims
  · constructor
    · rintro ⟨a, ha⟩
      simp at ha
    · rintro ⟨c2, r2, u2, hvc, _⟩
      exact Except.noConfusion hvc
  · dsimp only
    rcases hft : findTokenRec s.tokens tok with _ | rcd
    · constructor
      · rintro ⟨a, ha⟩
        simp at ha
      · rintro ⟨c2, r2, u2, hvc, hfr, _⟩
        exact Option.noConfusion hfr
    · dsimp only
      by_cases hval : rcd.IsValid now = false
      · rw [if_pos hval]
        constructor
        · rintro ⟨a, ha⟩
          simp at ha
        · rintro ⟨c2, r2, u2, hvc, hfr, hrev, hexp, _⟩
          injection hfr with hr
          subst hr
          unfold RefreshTokenRec.IsValid at hval
          rw [hrev] at hval
          simp [hexp] at hval
      · rw [if_neg hval]
        rcases hfid : findByID s.users claims.userID with _ | user
        · constructor
          · rintro ⟨a, ha⟩
            simp at ha
          · rintro ⟨c2, r2, u2, hvc, hfr, hrev, hexp, hfu, hac⟩
            injection hvc with hc
            subst hc
            rw [hfid] at hfu
            exact Option.noConfusion hfu
        · dsimp only
          by_cases hact : user.isActive = false
          · rw [if_pos hact]
            constructor
            · rintro ⟨a, ha⟩
              simp at ha
            · rintro ⟨c2, r2, u2, hvc, hfr, hrev, hexp, hfu, hac⟩
              injection hvc with hc
              subst hc
              rw [hfid] at hfu
              injection hfu with hu
              subst hu
              rw [hact] at hac
              cases hac
          · rw [if_neg hact]
            constructor
            · intro _
              have hactt : user.isActive = true := by
                revert hact
                cases user.isActive <;> simp
              have hvalt : rcd.IsValid now = true := by
                revert hval
                cases h2 : rcd.IsValid now <;> simp
              unfold RefreshTokenRec.IsValid at hvalt
              rw [Bool.and_eq_true] at hvalt
              obtain ⟨hrev, hexp⟩ := hvalt
              refine ⟨claims, rcd, user, rfl, rfl, ?_, ?_, hfid, hactt⟩
              · revert hrev
                cases rcd.isRevoked <;> simp
              · exact of_decide_eq_true hexp
            · intro _
              exact ⟨JWTService.generateAccessToken cfg now user, rfl⟩

/-- C6 witness: carol's live token refreshes successfully through the
forward direction, and on the empty ledger the failure is classified. -/
theorem refresh_token_success_iff_witness :
    (∃ a, (AuthService.refreshToken cfg0 1000 carolTokenRow.token stCarol).1 = .ok a) ∧
      (AuthErr.refreshTokenNotFound = .invalidRefreshToken ∨
        AuthErr.refreshTokenNotFound = .refreshTokenNotFound ∨
        AuthErr.refreshTokenNotFound = .refreshTokenInvalidOrExpired ∨
        AuthErr.refreshTokenNotFound = .userNotFound ∨
        AuthErr.refreshTokenNotFound = .accountInactive) :=
  ⟨(refresh_token_success_iff cfg0 1000 carolTokenRow.token stCarol).1.mpr
      ⟨refreshClaims cfg0 500 carol0, carolTokenRow, carol0,
        by decide, by decide, by decide, by decide, by decide, by decide⟩,
   (refresh_token_success_iff cfg0 1000 carolTokenRow.token emptyState).2
      .refreshTokenNotFound (by decide)⟩

/-- C10 witness: a revoked row of carol stays revoked with unchanged
expiry across a logout-all of her account. -/
theorem revocation_permanent_witness :
    ∃ r2, findTokenRec (applyOp noFaults cfg0 1000 (Op.logoutAll 1) stCarolRevoked).tokens
        carolTokenRow.token = some r2 ∧
      r2.expiresAt = carolTokenRowRevoked.expiresAt ∧
      (carolTokenRowRevoked.isRevoked = true → r2.isRevoked = true) :=
  (revocation_permanent noFaults cfg0 1000 (Op.logoutAll 1) stCarolRevoked).1
    carolTokenRow.token carolTokenRowRevoked (by decide)

end Inkstack
